import Mathlib

/-!
Verification of the dashboard script embedded in dashboard.py.

The Python file generates an HTML page whose main script (a JavaScript
block) parses workbook data and renders summary cards, a table and two
charts.  This file gives a shallow embedding of the data-processing parts
of that script: dynamic values are modelled by an explicit Value type,
JavaScript numbers by an exact-rational type with a NaN element (IEEE-754
rounding is not modelled; every number manipulated by the dashboard is
small and exact), and DOM output by plain structures holding the rendered
data.  The block-scanning table extractor described by the repository
specification, which has no implementation under src/, is modelled from
the specification text in a clearly marked section below.
-/

/-- JavaScript numbers, modelled exactly: either NaN or the rational
number num/den (den is kept nonzero by every constructor use in this
development; representations are not normalised, which is harmless since
all operations below are exact).  Infinity does not arise in the
modelled fragment: division is only reached behind a positivity guard. -/
inductive JsNum where
  | nan : JsNum
  | fin : Int → Int → JsNum
deriving DecidableEq

/-- JavaScript addition on numbers: NaN absorbs, otherwise exact. -/
def JsNum.add : JsNum → JsNum → JsNum
  | JsNum.fin a b, JsNum.fin c d => JsNum.fin (a * d + c * b) (b * d)
  | _, _ => JsNum.nan

/-- JavaScript multiplication on numbers: NaN absorbs, otherwise exact. -/
def JsNum.mul : JsNum → JsNum → JsNum
  | JsNum.fin a b, JsNum.fin c d => JsNum.fin (a * c) (b * d)
  | _, _ => JsNum.nan

/-- JavaScript division.  Division by zero would give Infinity in
JavaScript; in the dashboard it is unreachable (guarded by a strict
positivity test), so it is mapped to NaN here. -/
def JsNum.div : JsNum → JsNum → JsNum
  | JsNum.fin a b, JsNum.fin c d => if c = 0 then JsNum.nan else JsNum.fin (a * d) (b * c)
  | _, _ => JsNum.nan

/-- JavaScript unary minus. -/
def JsNum.negate : JsNum → JsNum
  | JsNum.nan => JsNum.nan
  | JsNum.fin a b => JsNum.fin (-a) b

/-- The comparison x > 0 of the script: false on NaN. -/
def JsNum.gt0 : JsNum → Bool
  | JsNum.nan => false
  | JsNum.fin a b => decide (0 < a * b)

/-- A dynamic cell value as produced by sheet_to_json: a missing property
reads as undefined, other cells are strings or numbers. -/
inductive Value where
  | undef : Value
  | vstr : String → Value
  | vnum : JsNum → Value
deriving DecidableEq

/-- JavaScript truthiness of the modelled values: undefined, the empty
string, 0 and NaN are falsy. -/
def jsTruthy : Value → Bool
  | Value.undef => false
  | Value.vstr s => !s.data.isEmpty
  | Value.vnum JsNum.nan => false
  | Value.vnum (JsNum.fin a _) => decide (a ≠ 0)

/-- The JavaScript expression a || b. -/
def jsOr (a b : Value) : Value := if jsTruthy a then a else b

/-- A row object produced by sheet_to_json: property names with values. -/
abbrev Row := List (String × Value)

/-- Property access row[k]: undefined when the key is absent. -/
def rowGet (row : Row) (k : String) : Value :=
  match row.find? (fun kv => kv.1 == k) with
  | some kv => kv.2
  | none => Value.undef

/-- Whether the character list starts with the given pattern. -/
def startsWithChars : List Char → List Char → Bool
  | _, [] => true
  | [], _ :: _ => false
  | c :: cs, p :: ps => (c = p) && startsWithChars cs ps

/-- Substring containment on character lists (String.prototype.includes). -/
def containsSub : List Char → List Char → Bool
  | _, [] => true
  | [], _ :: _ => false
  | c :: cs, p :: ps => startsWithChars (c :: cs) (p :: ps) || containsSub cs (p :: ps)

/-- s.includes(t) of the script. -/
def jsIncludes (s t : String) : Bool := containsSub s.data t.data

/-- s.split(sep) for a one-character separator, as used with the
separator character of the script. -/
def splitOnChar (sep : Char) : List Char → List (List Char)
  | [] => [[]]
  | c :: rest =>
    if c = sep then [] :: splitOnChar sep rest
    else
      match splitOnChar sep rest with
      | [] => [[c]]
      | h :: t => (c :: h) :: t

/-- s.replace(c, empty string): removes the first occurrence only. -/
def removeFirstChar (sep : Char) : List Char → List Char
  | [] => []
  | c :: rest => if c = sep then rest else c :: removeFirstChar sep rest

/-- s.trim(). -/
def trimChars (cs : List Char) : List Char :=
  ((cs.dropWhile Char.isWhitespace).reverse.dropWhile Char.isWhitespace).reverse

/-- s.toLowerCase(). -/
def jsToLowerStr (s : String) : String := String.mk (s.data.map Char.toLower)

/-- Value of a list of decimal digits. -/
def decDigitsVal (cs : List Char) : Int :=
  cs.foldl (fun a c => a * 10 + ((c.toNat - ('0').toNat : Nat) : Int)) 0

/-- Hexadecimal digit test. -/
def isHexDigitChar (c : Char) : Bool :=
  c.isDigit || (('a' ≤ c) && (c ≤ 'f')) || (('A' ≤ c) && (c ≤ 'F'))

/-- Value of one hexadecimal digit. -/
def hexDigitVal (c : Char) : Int :=
  if c.isDigit then ((c.toNat - ('0').toNat : Nat) : Int)
  else if ('a' ≤ c) && (c ≤ 'f') then ((c.toNat - ('a').toNat + 10 : Nat) : Int)
  else ((c.toNat - ('A').toNat + 10 : Nat) : Int)

/-- Value of a list of hexadecimal digits. -/
def hexDigitsVal (cs : List Char) : Int :=
  cs.foldl (fun a c => a * 16 + hexDigitVal c) 0

/-- Digit scan of parseInt after whitespace and sign: an optional 0x/0X
prefix selects hexadecimal, otherwise the longest run of leading decimal
digits is taken; no digit at all gives NaN. -/
def jsParseIntCore (cs : List Char) : JsNum :=
  match cs with
  | '0' :: 'x' :: rest =>
    if (rest.takeWhile isHexDigitChar).isEmpty then JsNum.nan
    else JsNum.fin (hexDigitsVal (rest.takeWhile isHexDigitChar)) 1
  | '0' :: 'X' :: rest =>
    if (rest.takeWhile isHexDigitChar).isEmpty then JsNum.nan
    else JsNum.fin (hexDigitsVal (rest.takeWhile isHexDigitChar)) 1
  | _ =>
    if (cs.takeWhile Char.isDigit).isEmpty then JsNum.nan
    else JsNum.fin (decDigitsVal (cs.takeWhile Char.isDigit)) 1

/-- parseInt on a character list: leading whitespace is skipped, then an
optional sign, then digits. -/
def jsParseIntChars (cs0 : List Char) : JsNum :=
  match cs0.dropWhile Char.isWhitespace with
  | '+' :: rest => jsParseIntCore rest
  | '-' :: rest => JsNum.negate (jsParseIntCore rest)
  | cs => jsParseIntCore cs

/-- parseInt on a string. -/
def jsParseIntStr (s : String) : JsNum := jsParseIntChars s.data

/-- parseInt applied to a modelled value.  A number argument is converted
through its decimal string form, which for the plain-form numbers of this
model is truncation toward zero. -/
def jsParseInt : Value → JsNum
  | Value.undef => JsNum.nan
  | Value.vstr s => jsParseIntStr s
  | Value.vnum JsNum.nan => JsNum.nan
  | Value.vnum (JsNum.fin a b) => if b = 0 then JsNum.nan else JsNum.fin (a / b) 1

/-- Powers of ten. -/
def pow10 : Nat → Int
  | 0 => 1
  | n + 1 => 10 * pow10 n

/-- Full-string decimal parse of ToNumber after trimming and sign:
digits, digits.digits, digits. or .digits; anything else is NaN.
Exponent, hexadecimal and Infinity literals, which do not occur in the
dashboard cells, are also mapped to NaN. -/
def jsStrictDec (cs : List Char) : JsNum :=
  match cs.drop (cs.takeWhile Char.isDigit).length with
  | [] =>
    if (cs.takeWhile Char.isDigit).isEmpty then JsNum.nan
    else JsNum.fin (decDigitsVal (cs.takeWhile Char.isDigit)) 1
  | '.' :: fpart =>
    if fpart.all Char.isDigit && !((cs.takeWhile Char.isDigit).isEmpty && fpart.isEmpty) then
      JsNum.fin (decDigitsVal (cs.takeWhile Char.isDigit) * pow10 fpart.length + decDigitsVal fpart)
        (pow10 fpart.length)
    else JsNum.nan
  | _ => JsNum.nan

/-- ToNumber on a character list: trimmed empty string is 0. -/
def jsToNumberChars (cs0 : List Char) : JsNum :=
  match trimChars cs0 with
  | [] => JsNum.fin 0 1
  | '+' :: rest => jsStrictDec rest
  | '-' :: rest => JsNum.negate (jsStrictDec rest)
  | cs => jsStrictDec cs

/-- Numeric coercion of a value, as performed by the operators > and /
of the script: undefined coerces to NaN. -/
def jsToNumber : Value → JsNum
  | Value.undef => JsNum.nan
  | Value.vnum n => n
  | Value.vstr s => jsToNumberChars s.data

/-- Digits of n.toFixed(1) for a nonnegative numerator. -/
def fixedDigits (n : Int) : String :=
  toString (n / 10) ++ "." ++ toString (n % 10)

/-- x.toFixed(1): NaN prints as NaN; otherwise the exact rational is
rounded to one decimal, ties away from the smaller value, matching the
specification of toFixed on exactly representable inputs. -/
def jsToFixed1 : JsNum → String
  | JsNum.nan => "NaN"
  | JsNum.fin a b =>
    if b = 0 then "NaN"
    else
      if (20 * a + b).fdiv (2 * b) < 0 then "-" ++ fixedDigits (-((20 * a + b).fdiv (2 * b)))
      else fixedDigits ((20 * a + b).fdiv (2 * b))

/-- Rendered summary cards of renderCards: the three totals and the
pass-rate string written to the card elements. -/
structure CardsOut where
  totalHeadcount : JsNum
  totalPass : JsNum
  totalFail : JsNum
  passRate : String
deriving DecidableEq

/-- Headcount contribution of one row in renderCards:
parseInt(row[Total Headcount] || row[Total_Headcount] || 0). -/
def cardHeadcount (row : Row) : JsNum :=
  jsParseInt (jsOr (jsOr (rowGet row ("Total Headcount")) (rowGet row ("Total_Headcount")))
    (Value.vnum (JsNum.fin 0 1)))

/-- Pass contribution of one row in renderCards: parseInt(row[Pass] || 0). -/
def cardPass (row : Row) : JsNum :=
  jsParseInt (jsOr (rowGet row ("Pass")) (Value.vnum (JsNum.fin 0 1)))

/-- Fail contribution of one row in renderCards: parseInt(row[Fail] || 0). -/
def cardFail (row : Row) : JsNum :=
  jsParseInt (jsOr (rowGet row ("Fail")) (Value.vnum (JsNum.fin 0 1)))

/-- The accumulation loop of renderCards over the regional data rows,
returning (totalHeadcount, totalPass, totalFail). -/
def renderCardsTotals (data : List Row) : JsNum × JsNum × JsNum :=
  data.foldl
    (fun t row => (t.1.add (cardHeadcount row), t.2.1.add (cardPass row), t.2.2.add (cardFail row)))
    (JsNum.fin 0 1, JsNum.fin 0 1, JsNum.fin 0 1)

/-- renderCards: totals plus the guarded pass-rate string
totalHeadcount > 0 ? ((totalPass / totalHeadcount) * 100).toFixed(1) + percent : 0 percent. -/
def renderCards (data : List Row) : CardsOut :=
  { totalHeadcount := (renderCardsTotals data).1
    totalPass := (renderCardsTotals data).2.1
    totalFail := (renderCardsTotals data).2.2
    passRate :=
      if (renderCardsTotals data).1.gt0 then
        jsToFixed1 (((renderCardsTotals data).2.1.div (renderCardsTotals data).1).mul
          (JsNum.fin 100 1)) ++ "%"
      else "0%" }

/-- One rendered table row of renderTable, with its guarded rate string
hc > 0 ? ((pass / hc) * 100).toFixed(1) + percent : 0 percent. -/
structure TableRowOut where
  region : Value
  headcount : Value
  pass : Value
  fail : Value
  rate : String
deriving DecidableEq

/-- renderTable, one row: reads Region, Total Headcount, Pass, Fail and
formats the rate. -/
def renderTableRow (row : Row) : TableRowOut :=
  { region := rowGet row ("Region")
    headcount := rowGet row ("Total Headcount")
    pass := rowGet row ("Pass")
    fail := rowGet row ("Fail")
    rate :=
      if (jsToNumber (rowGet row ("Total Headcount"))).gt0 then
        jsToFixed1 (((jsToNumber (rowGet row ("Pass"))).div
          (jsToNumber (rowGet row ("Total Headcount")))).mul (JsNum.fin 100 1)) ++ "%"
      else "0%" }

/-- renderTable over the whole regional dataset. -/
def renderTable (data : List Row) : List TableRowOut := data.map renderTableRow

/-- The data given to the region bar chart by renderRegionChart. -/
structure RegionChart where
  labels : List Value
  passData : List Value
  failData : List Value
deriving DecidableEq

/-- renderRegionChart: labels and datasets mapped directly off the rows. -/
def renderRegionChart (data : List Row) : RegionChart :=
  { labels := data.map (fun d => rowGet d ("Region"))
    passData := data.map (fun d => rowGet d ("Pass"))
    failData := data.map (fun d => rowGet d ("Fail")) }

/-- The products accumulator of renderLobChart: own properties of the
plain object, in insertion order, each holding (pass, fail) sums. -/
abbrev Products := List (String × JsNum × JsNum)

/-- Property names inherited from Object.prototype by the object literal
used for the products accumulator.  A lookup of one of these names on the
accumulator is truthy even when no own property was created, because the
inherited value is a function or object. -/
def protoPropNames : List String :=
  ["constructor", "hasOwnProperty", "isPrototypeOf", "propertyIsEnumerable",
   "toLocaleString", "toString", "valueOf", "__proto__",
   "__defineGetter__", "__defineSetter__", "__lookupGetter__", "__lookupSetter__"]

/-- Truthiness of products[k] in the guard if (!products[k]):
an own entry is an always-truthy object, and names inherited from
Object.prototype are also truthy. -/
def productsTruthy (ps : Products) (k : String) : Bool :=
  (ps.find? (fun e => e.1 == k)).isSome || protoPropNames.contains k

/-- products[k].pass += c on the own entries; a lookup that only hits the
prototype mutates the inherited object, which never appears among the own
keys, so the own entries are unchanged in that case. -/
def productsAddPass (ps : Products) (k : String) (c : JsNum) : Products :=
  ps.map (fun e => if e.1 == k then (e.1, e.2.1.add c, e.2.2) else e)

/-- products[k].fail += c, as for productsAddPass. -/
def productsAddFail (ps : Products) (k : String) (c : JsNum) : Products :=
  ps.map (fun e => if e.1 == k then (e.1, e.2.1, e.2.2.add c) else e)

/-- Parse of a Result string containing an opening parenthesis:
product = parts[0].trim(), status with the first closing parenthesis
removed, trimmed and lowercased. -/
def parseParen (s : String) : String × String :=
  (String.mk (trimChars ((splitOnChar '(' s.data).getD 0 [])),
   String.mk (((trimChars (removeFirstChar ')' ((splitOnChar '(' s.data).getD 1 []))).map
     Char.toLower)))

/-- Sum over the non-Result columns of a row:
count += parseInt(row[key] || 0). -/
def lobRowCount (row : Row) : JsNum :=
  row.foldl
    (fun c kv =>
      if kv.1 == ("Result") then c
      else c.add (jsParseInt (jsOr kv.2 (Value.vnum (JsNum.fin 0 1)))))
    (JsNum.fin 0 1)

/-- The body of the forEach of renderLobChart for one row.  Reading
row[Result] gives undefined when the key is absent; calling includes on
undefined or on a number throws a TypeError, modelled as the error
result.  Otherwise the product and status are parsed, the region columns
are summed, the product entry is created when the guarded lookup is falsy,
and the count is added to the pass or fail sum according to the status. -/
def renderLobRow (ps : Products) (row : Row) : Except String Products :=
  match rowGet row ("Result") with
  | Value.vstr s =>
    let pr := if jsIncludes s ("(") then parseParen s else (s, ("unknown" : String))
    let ps1 :=
      if productsTruthy ps pr.1 then ps else ps ++ [(pr.1, JsNum.fin 0 1, JsNum.fin 0 1)]
    Except.ok
      (if pr.2 = "pass" then productsAddPass ps1 pr.1 (lobRowCount row)
       else if pr.2 = "fail" then productsAddFail ps1 pr.1 (lobRowCount row)
       else ps1)
  | _ => Except.error ("TypeError")

/-- The forEach of renderLobChart: the first thrown TypeError aborts the
aggregation. -/
def renderLobRows : Products → List Row → Except String Products
  | ps, [] => Except.ok ps
  | ps, row :: rest =>
    match renderLobRow ps row with
    | Except.ok ps2 => renderLobRows ps2 rest
    | Except.error e => Except.error e

/-- The aggregation performed by renderLobChart over the LOB rows. -/
def renderLobChart (data : List Row) : Except String Products :=
  renderLobRows [] data

/-- The data given to the LOB bar chart. -/
structure LobChart where
  labels : List String
  passData : List JsNum
  failData : List JsNum
deriving DecidableEq

/-- Chart datasets built from the products accumulator:
Object.keys order is insertion order for these non-index keys. -/
def lobChartOf (ps : Products) : LobChart :=
  { labels := ps.map (fun e => e.1)
    passData := ps.map (fun e => e.2.1)
    failData := ps.map (fun e => e.2.2) }

/-- Sheet selection of handleFileUpload: the first sheet name containing
the lowercased keyword regional. -/
def regionalFind (names : List String) : Option String :=
  names.find? (fun n => jsIncludes (jsToLowerStr n) ("regional"))

/-- Sheet selection of handleFileUpload: the first sheet name containing
lob or comparison, lowercased. -/
def lobFind (names : List String) : Option String :=
  names.find? (fun n => jsIncludes (jsToLowerStr n) ("lob") || jsIncludes (jsToLowerStr n) ("comparison"))

/-- The falsy-guarded fallback if (!name) name = other of the script:
an undefined or empty-string find result is replaced by the fallback. -/
def fallbackResolve : Option String → Option String → Option String
  | some n, fb => if n = "" then fb else some n
  | none, fb => fb

/-- regionalSheetName after its fallback to SheetNames[1]. -/
def regionalSheetName (names : List String) : Option String :=
  fallbackResolve (regionalFind names) (names.get? 1)

/-- lobSheetName after its fallback to SheetNames[0]. -/
def lobSheetName (names : List String) : Option String :=
  fallbackResolve (lobFind names) (names.get? 0)

/-- A parsed worksheet, abstracted to the row objects that
sheet_to_json recovers from it. -/
abbrev SheetData := List Row

/-- workbook.Sheets[name]: property lookup on the sheet map; an undefined
name, or a name that is not a sheet, reads as undefined (absence). -/
def getSheet (sheets : List (String × SheetData)) (name : Option String) : Option SheetData :=
  match name with
  | some n =>
    match sheets.find? (fun kv => kv.1 == n) with
    | some kv => some kv.2
    | none => none
  | none => none

/-- XLSX.utils.sheet_to_json, at the abstraction level of this model.
External collaborator (SheetJS); its documented guard returns the empty
row list when the sheet argument is null or undefined, and otherwise the
decoded row objects. -/
def sheetToJson : Option SheetData → List Row
  | none => []
  | some rows => rows

/-- The two chart-instance globals of the script, the only mutable state
across renders, made explicit as a state value. -/
structure DashState where
  regionChartInstance : Option RegionChart
  lobChartInstance : Option LobChart
deriving DecidableEq

/-- Everything processAndRender writes to the page for one dataset. -/
structure RenderOutput where
  cards : CardsOut
  table : List TableRowOut
  regionChart : RegionChart
  lobChart : Except String LobChart

/-- processAndRender: renders cards, table and both charts from the two
datasets, replacing the chart instances.  A TypeError thrown inside
renderLobChart leaves the previous LOB chart instance in place, since the
throw happens before the instance is rebuilt. -/
def processAndRender (regionalData lobData : List Row) (s : DashState) :
    RenderOutput × DashState :=
  ({ cards := renderCards regionalData
     table := renderTable regionalData
     regionChart := renderRegionChart regionalData
     lobChart :=
       match renderLobChart lobData with
       | Except.ok ps => Except.ok (lobChartOf ps)
       | Except.error e => Except.error e },
   { regionChartInstance := some (renderRegionChart regionalData)
     lobChartInstance :=
       match renderLobChart lobData with
       | Except.ok ps => some (lobChartOf ps)
       | Except.error _ => s.lobChartInstance })

/-- Modelled from the spec: a raw grid cell of the TableBlockExtractor,
whose implementation is not under src/ (only the specification describes
it).  A cell is absent/empty, text, or numeric. -/
inductive Cell where
  | absent : Cell
  | text : String → Cell
  | num : Int → Cell
deriving DecidableEq

/-- Modelled from the spec: a grid is an ordered sequence of rows of
cells. -/
abbrev Grid := List (List Cell)

/-- Modelled from the spec: a row is fully empty when every cell in it is
absent/empty. -/
def rowIsEmpty (r : List Cell) : Bool :=
  r.all (fun c => c = Cell.absent)

/-- Modelled from the spec: the single linear scan of block-scan
extraction, accumulating a current block (kept reversed) until a fully
empty row or the end of the grid, emitting the accumulated block when it
is nonempty. -/
def blockScanAux : List (List Cell) → Grid → List (List (List Cell))
  | acc, [] => if acc.isEmpty then [] else [acc.reverse]
  | acc, r :: rs =>
    if rowIsEmpty r then
      if acc.isEmpty then blockScanAux [] rs else acc.reverse :: blockScanAux [] rs
    else blockScanAux (r :: acc) rs

/-- Modelled from the spec: block-scan extraction of a grid. -/
def blockScan (g : Grid) : List (List (List Cell)) :=
  blockScanAux [] g

/-- Reference definition, following the words of the specification: the
number of maximal contiguous runs of non-fully-empty rows, counted with a
flag recording whether the scan is inside a run. -/
def countRunsAux : Bool → Grid → Nat
  | _, [] => 0
  | inRun, r :: rs =>
    if rowIsEmpty r then countRunsAux false rs
    else (if inRun then 0 else 1) + countRunsAux true rs

/-- Reference definition: number of maximal non-empty row runs. -/
def countRuns (g : Grid) : Nat := countRunsAux false g

/-- Modelled from the spec: pad a data row with absent values or truncate
it so it has exactly the header width. -/
def normalizeRow (n : Nat) (row : List Cell) : List Cell :=
  (row ++ List.replicate (n - row.length) Cell.absent).take n

/-- Modelled from the spec: the classification rules applied to the text
of the first header cell, case-insensitively, in fixed priority order,
with the unknown fallback. -/
def classifyName (s : String) : String :=
  if jsIncludes (jsToLowerStr s) ("result") then "product"
  else if jsIncludes (jsToLowerStr s) ("region") then "region"
  else if jsIncludes (jsToLowerStr s) ("outlet") then "outlet"
  else "unknown"

/-- Modelled from the spec: the text of the first header cell; a
non-text first cell matches no keyword rule. -/
def headerText (r : List Cell) : String :=
  match r.head? with
  | some (Cell.text s) => s
  | _ => ""

/-- Modelled from the spec: a recovered table with its semantic name,
header and width-normalized data rows. -/
structure Table where
  name : String
  columns : List Cell
  rows : List (List Cell)
deriving DecidableEq

/-- Modelled from the spec: build a Table from one block, row 0 as the
header and the remainder as data rows zipped against the header with the
padding/truncation policy; a block that is empty or whose header row is
fully empty is rejected (skipped, not an error). -/
def mkTable : List (List Cell) → Option Table
  | [] => none
  | header :: rest =>
    if rowIsEmpty header then none
    else some (Table.mk (classifyName (headerText header)) header
      (rest.map (normalizeRow header.length)))

theorem blockScanAux_length (rs : Grid) :
    ∀ acc, (blockScanAux acc rs).length =
      (if acc.isEmpty then 0 else 1) + countRunsAux (!acc.isEmpty) rs := by
  induction rs with
  | nil => intro acc; cases acc <;> simp [blockScanAux, countRunsAux]
  | cons r rs ih =>
    intro acc
    cases hre : rowIsEmpty r
    · cases acc
      · simp [blockScanAux, countRunsAux, hre, ih]
      · simp [blockScanAux, countRunsAux, hre, ih]
    · cases acc
      · simp [blockScanAux, countRunsAux, hre, ih]
      · simp [blockScanAux, countRunsAux, hre, ih]
        omega

theorem blockScanAux_join (rs : Grid) :
    ∀ acc, (blockScanAux acc rs).flatten =
      acc.reverse ++ rs.filter (fun r => !rowIsEmpty r) := by
  induction rs with
  | nil => intro acc; cases acc <;> simp [blockScanAux]
  | cons r rs ih =>
    intro acc
    cases hre : rowIsEmpty r
    · cases acc <;> simp [blockScanAux, hre, ih]
    · cases acc <;> simp [blockScanAux, hre, ih]

theorem blockScanAux_all_nonempty (rs : Grid) :
    ∀ acc, rs.all (fun r => !rowIsEmpty r) = true → acc ≠ [] →
      blockScanAux acc rs = [acc.reverse ++ rs] := by
  induction rs with
  | nil => intro acc _ hacc; cases acc <;> simp_all [blockScanAux]
  | cons r rs ih =>
    intro acc hall hacc
    simp only [List.all_cons, Bool.and_eq_true] at hall
    have hne : rowIsEmpty r = false := by
      cases h : rowIsEmpty r
      · rfl
      · rw [h] at hall; simp at hall
    rw [blockScanAux, hne]
    simp only [Bool.false_eq_true, if_false]
    rw [ih (r :: acc) hall.2 (by simp)]
    simp

theorem normalizeRow_length (n : Nat) (row : List Cell) :
    (normalizeRow n row).length = n := by
  simp [normalizeRow]
  omega

/-- C1: evaluation of the code at a failing input.  A regional row whose
Pass cell is the non-numeric string N/A makes parseInt return NaN, and the
NaN propagates through the summed pass total (the later well-formed row
cannot repair it); likewise a non-numeric region cell in a LOB row
poisons the aggregated pass sum of its product.  This contradicts the
claim that a cell failing numeric parse contributes zero and that NaN
never propagates into the sums. -/
theorem claim1_nan_propagation :
    renderCardsTotals [[(("Pass" : String), Value.vstr ("N/A"))],
        [(("Pass" : String), Value.vnum (JsNum.fin 5 1))]] =
      (JsNum.fin 0 1, JsNum.nan, JsNum.fin 0 1) ∧
    renderLobChart [[(("Result" : String), Value.vstr ("iPhone (Pass)")),
        (("Central" : String), Value.vstr ("abc"))]] =
      Except.ok [(("iPhone" : String), JsNum.nan, JsNum.fin 0 1)] :=
  ⟨rfl, rfl⟩

/-- C2: evaluation of the code at a failing input.  A LOB row without a
Result key (or with a numeric Result) makes renderLobChart call includes
on undefined (or on a number), which throws a TypeError: the aggregation
aborts instead of degrading. -/
theorem claim2_malformed_row_raises :
    renderLobChart [[(("Region" : String), Value.vstr ("North"))]] =
      Except.error ("TypeError") ∧
    renderLobChart [[(("Result" : String), Value.vnum (JsNum.fin 5 1))]] =
      Except.error ("TypeError") :=
  ⟨rfl, rfl⟩

/-- C5: the rendered output of processAndRender is a pure function of the
two datasets: it does not depend on the incoming chart-instance state,
and re-running the render on the same input reproduces the same output. -/
theorem claim5_render_is_pure (rd ld : List Row) (s1 s2 : DashState) :
    (processAndRender rd ld s1).1 = (processAndRender rd ld s2).1 ∧
    (processAndRender rd ld ((processAndRender rd ld s1).2)).1 =
      (processAndRender rd ld s1).1 :=
  ⟨rfl, rfl⟩

/-- C3 counterexample: in a workbook whose sheets are Regional Comparison
followed by LOB Comparison, the name Regional Comparison matches both the
regional keyword and the comparison keyword.  The claim says such a name
resolves to the higher-priority rule only; in the code the two searches
are independent, so the same sheet is selected for the regional role AND
for the LOB role, and the dedicated LOB Comparison sheet is never chosen
for the LOB chart. -/
theorem claim3_counterexample :
    regionalSheetName ["Regional Comparison", "LOB Comparison"] =
      some ("Regional Comparison") ∧
    lobSheetName ["Regional Comparison", "LOB Comparison"] =
      some ("Regional Comparison") ∧
    lobSheetName ["Regional Comparison", "LOB Comparison"] ≠
      some ("LOB Comparison") := by
  refine ⟨rfl, rfl, ?_⟩
  decide

/-- C3 amended: each of the two roles is resolved independently by its
own deterministic first-match, case-insensitive substring search (so a
name matching both keywords can be picked for both roles), and a search
matching no name falls back to a positional default: index 1 for the
regional role, index 0 for the LOB role. -/
theorem claim3_amended (ns : List String) (n m : String) :
    (regionalFind ns = some n → regionalSheetName ns = some n) ∧
    (lobFind ns = some m → lobSheetName ns = some m) ∧
    (regionalFind ns = none → regionalSheetName ns = ns.get? 1) ∧
    (lobFind ns = none → lobSheetName ns = ns.get? 0) := by
  refine ⟨?_, ?_, ?_, ?_⟩
  · intro h
    have hp := List.find?_some h
    have hne : n ≠ "" := by
      intro he
      rw [he] at hp
      exact absurd hp (by decide)
    simp [regionalSheetName, h, fallbackResolve, hne]
  · intro h
    have hp := List.find?_some h
    have hne : m ≠ "" := by
      intro he
      rw [he] at hp
      exact absurd hp (by decide)
    simp [lobSheetName, h, fallbackResolve, hne]
  · intro h
    simp [regionalSheetName, h, fallbackResolve]
  · intro h
    simp [lobSheetName, h, fallbackResolve]

/-- C3 witness: the amended characterization applied to concrete
workbooks, evaluating both a successful keyword match and a fallback. -/
theorem claim3_witness :
    regionalSheetName ["Regional Comparison", "LOB Comparison"] =
      some ("Regional Comparison") ∧
    lobSheetName ["Sales Data"] = (["Sales Data"] : List String).get? 0 :=
  ⟨(claim3_amended ["Regional Comparison", "LOB Comparison"]
      ("Regional Comparison") ("x")).1 rfl,
   (claim3_amended ["Sales Data"] ("x") ("x")).2.2.2 rfl⟩

/-- C4 counterexample: a workbook holding only a sheet named
Regional Data, which no LOB keyword matches.  The claim says the
requested LOB/product data is then absent and downstream metrics default
to zero; in the code the positional fallback assigns SheetNames[0], so
the LOB chart is fed the regional rows, which are not absent and not
empty. -/
theorem claim4_counterexample :
    lobFind ["Regional Data"] = none ∧
    lobSheetName ["Regional Data"] = some ("Regional Data") ∧
    sheetToJson (getSheet [(("Regional Data" : String),
        [[(("Region" : String), Value.vstr ("North"))]])]
      (lobSheetName ["Regional Data"])) =
      [[(("Region" : String), Value.vstr ("North"))]] ∧
    ([[(("Region" : String), Value.vstr ("North"))]] : List Row) ≠ [] := by
  refine ⟨rfl, rfl, rfl, ?_⟩
  decide

/-- C4 amended: absence only arises when the positional fallback is
itself out of range (for the regional role: no sheet name contains the
regional keyword and there is no second sheet).  In that case the lookup
yields absence rather than an exception, sheet_to_json turns the absent
sheet into an empty dataset, and the summary cards compute zero totals
and the literal 0 percent rate without error. -/
theorem claim4_amended (names : List String) (sheets : List (String × SheetData)) :
    getSheet sheets (regionalSheetName names) = none →
    sheetToJson (getSheet sheets (regionalSheetName names)) = [] ∧
    renderCardsTotals (sheetToJson (getSheet sheets (regionalSheetName names))) =
      (JsNum.fin 0 1, JsNum.fin 0 1, JsNum.fin 0 1) ∧
    (renderCards (sheetToJson (getSheet sheets (regionalSheetName names)))).passRate = "0%" := by
  intro h
  rw [h]
  exact ⟨rfl, rfl, rfl⟩

/-- C4 witness: the amended claim evaluated on a one-sheet workbook with
no regional keyword match, where the regional role is genuinely absent. -/
theorem claim4_witness :
    sheetToJson (getSheet [(("Data" : String), ([] : SheetData))]
      (regionalSheetName ["Data"])) = [] ∧
    (renderCards (sheetToJson (getSheet [(("Data" : String), ([] : SheetData))]
      (regionalSheetName ["Data"])))).passRate = "0%" :=
  ⟨(claim4_amended ["Data"] [(("Data" : String), ([] : SheetData))] rfl).1,
   (claim4_amended ["Data"] [(("Data" : String), ([] : SheetData))] rfl).2.2⟩

/-- C6 counterexample: the empty grid has no fully-empty row, yet
block-scan extraction emits zero blocks, not one block covering the
grid, so the one-block clause fails as universally stated. -/
theorem claim6_counterexample :
    (([] : Grid).all (fun r => !rowIsEmpty r)) = true ∧
    blockScan ([] : Grid) = [] ∧
    (blockScan ([] : Grid)).length ≠ 1 := by
  refine ⟨rfl, rfl, ?_⟩
  decide

/-- C6 amended: for every grid the number of emitted blocks equals the
number of maximal non-empty row runs, concatenating the blocks in order
yields exactly the non-empty rows in their original order, and every
NONEMPTY grid with no fully-empty row yields exactly one block covering
the entire grid. -/
theorem claim6_amended (g : Grid) :
    (blockScan g).length = countRuns g ∧
    (blockScan g).flatten = g.filter (fun r => !rowIsEmpty r) ∧
    (g ≠ [] → g.all (fun r => !rowIsEmpty r) = true → blockScan g = [g]) := by
  refine ⟨?_, ?_, ?_⟩
  · rw [blockScan, countRuns, blockScanAux_length]
    simp
  · rw [blockScan, blockScanAux_join]
    rfl
  · intro hne hall
    cases g with
    | nil => exact absurd rfl hne
    | cons r rs =>
      simp only [List.all_cons, Bool.and_eq_true] at hall
      have hre : rowIsEmpty r = false := by
        cases h : rowIsEmpty r
        · rfl
        · rw [h] at hall; simp at hall
      rw [blockScan, blockScanAux, hre]
      simp only [Bool.false_eq_true, if_false, List.isEmpty_nil]
      rw [blockScanAux_all_nonempty rs [r] hall.2 (by simp)]
      rfl

/-- C6 witness: the amended claim applied to a concrete two-row grid with
no fully-empty row, which forms a single block. -/
theorem claim6_witness :
    blockScan [[Cell.text ("A")], [Cell.text ("B")]] =
      [[[Cell.text ("A")], [Cell.text ("B")]]] :=
  (claim6_amended [[Cell.text ("A")], [Cell.text ("B")]]).2.2 (by decide) (by decide)

/-- C7: every data row of a Table produced by extraction has exactly the
header column count; short rows were padded with absent cells and long
rows truncated. -/
theorem claim7_row_width (b : List (List Cell)) (t : Table) (r : List Cell) :
    mkTable b = some t → r ∈ t.rows → r.length = t.columns.length := by
  intro hmk hr
  cases b with
  | nil => exact absurd hmk (by simp [mkTable])
  | cons header rest =>
    rw [mkTable] at hmk
    cases hre : rowIsEmpty header
    · rw [hre] at hmk
      simp only [Bool.false_eq_true, if_false, Option.some.injEq] at hmk
      rw [← hmk] at hr
      simp only [List.mem_map] at hr
      obtain ⟨r0, _, hr0⟩ := hr
      rw [← hmk, ← hr0]
      exact normalizeRow_length header.length r0
    · rw [hre] at hmk
      simp at hmk

/-- C7 witness: scenario B of the specification, a 3-column header over a
2-cell data row; the third value is padded with absent and the produced
row has the header width. -/
theorem claim7_witness :
    ([Cell.text ("x"), Cell.num 1, Cell.absent] : List Cell).length =
      ([Cell.text ("A"), Cell.text ("B"), Cell.text ("C")] : List Cell).length :=
  claim7_row_width
    [[Cell.text ("A"), Cell.text ("B"), Cell.text ("C")], [Cell.text ("x"), Cell.num 1]]
    (Table.mk ("unknown") [Cell.text ("A"), Cell.text ("B"), Cell.text ("C")]
      [[Cell.text ("x"), Cell.num 1, Cell.absent]])
    [Cell.text ("x"), Cell.num 1, Cell.absent]
    rfl
    (by decide)

/-- C8: the pass-rate divisions are guarded.  When the summed total
headcount is not strictly positive under the script comparison (which is
also false for NaN), renderCards emits the literal 0 percent; and a table
row whose headcount does not compare strictly positive gets the literal
0 percent rate in renderTable. -/
theorem claim8_rate_guard (data : List Row) (row : Row) :
    ((renderCardsTotals data).1.gt0 = false → (renderCards data).passRate = "0%") ∧
    ((jsToNumber (rowGet row ("Total Headcount"))).gt0 = false →
      (renderTableRow row).rate = "0%") := by
  constructor
  · intro h
    simp [renderCards, h]
  · intro h
    simp [renderTableRow, h]

/-- C8 witness: the guard evaluated on an empty regional dataset (total
headcount 0) and on a row with no headcount cell (NaN comparison). -/
theorem claim8_witness :
    (renderCards []).passRate = "0%" ∧ (renderTableRow ([] : Row)).rate = "0%" :=
  ⟨(claim8_rate_guard [] ([] : Row)).1 rfl, (claim8_rate_guard [] ([] : Row)).2 rfl⟩

/-- C9 counterexample: a LOB row whose Result is the parenthesis-free
string toString.  The claim says the product key is still created with
zero sums; in the code the creation guard if (!products[product]) sees
the truthy inherited Object.prototype.toString, so no own key is created
and the product is absent from the aggregation output. -/
theorem claim9_counterexample :
    jsIncludes ("toString") ("(") = false ∧
    renderLobChart [[(("Result" : String), Value.vstr ("toString"))]] =
      Except.ok ([] : Products) := by
  exact ⟨rfl, rfl⟩

/-- C9 amended: for a LOB row whose Result string contains no opening
parenthesis the status is unknown, so the row counts are added to neither
the pass nor the fail sum of any product; the product key is created with
zero sums exactly when the creation guard sees a falsy lookup, i.e. when
the name is neither an existing key nor one inherited from
Object.prototype (such as toString). -/
theorem claim9_amended (ps : Products) (row : Row) (s : String) :
    rowGet row ("Result") = Value.vstr s →
    jsIncludes s ("(") = false →
    renderLobRow ps row =
      Except.ok (if productsTruthy ps s then ps
        else ps ++ [(s, JsNum.fin 0 1, JsNum.fin 0 1)]) := by
  intro h1 h2
  rw [renderLobRow, h1]
  simp only [h2, Bool.false_eq_true, if_false]
  have hp : ¬ (("unknown" : String) = ("pass" : String)) := by decide
  have hf : ¬ (("unknown" : String) = ("fail" : String)) := by decide
  simp [hp, hf]

/-- C9 witness: the amended claim on a fresh accumulator and a row whose
Result is iPhone with no parenthesis: the key is created with zero pass
and fail sums. -/
theorem claim9_witness :
    renderLobRow [] [(("Result" : String), Value.vstr ("iPhone"))] =
      Except.ok [(("iPhone" : String), JsNum.fin 0 1, JsNum.fin 0 1)] :=
  claim9_amended [] [(("Result" : String), Value.vstr ("iPhone"))] ("iPhone") rfl rfl

/-- C10: renderCards treats absent keys as zero.  A row without a Pass
key contributes zero to the pass total, a row without a Fail key
contributes zero to the fail total, and a row with neither headcount
spelling contributes zero to the headcount total. -/
theorem claim10_missing_keys_zero (row : Row) :
    (rowGet row ("Pass") = Value.undef → cardPass row = JsNum.fin 0 1) ∧
    (rowGet row ("Fail") = Value.undef → cardFail row = JsNum.fin 0 1) ∧
    (rowGet row ("Total Headcount") = Value.undef →
      rowGet row ("Total_Headcount") = Value.undef →
      cardHeadcount row = JsNum.fin 0 1) := by
  refine ⟨?_, ?_, ?_⟩
  · intro h
    rw [cardPass, h]
    rfl
  · intro h
    rw [cardFail, h]
    rfl
  · intro h1 h2
    rw [cardHeadcount, h1, h2]
    rfl

/-- C10 witness: a row holding only a Region cell; all three
contributions evaluate to zero through the theorem. -/
theorem claim10_witness :
    cardPass [(("Region" : String), Value.vstr ("North"))] = JsNum.fin 0 1 ∧
    cardFail [(("Region" : String), Value.vstr ("North"))] = JsNum.fin 0 1 ∧
    cardHeadcount [(("Region" : String), Value.vstr ("North"))] = JsNum.fin 0 1 :=
  ⟨(claim10_missing_keys_zero [(("Region" : String), Value.vstr ("North"))]).1 rfl,
   (claim10_missing_keys_zero [(("Region" : String), Value.vstr ("North"))]).2.1 rfl,
   (claim10_missing_keys_zero [(("Region" : String), Value.vstr ("North"))]).2.2 rfl rfl⟩
